import Mathlib

/-!
Verification of the stock-movement core of the SistemadeestoqueMRX
inventory application (src/app1.py), shallowly embedded in Lean 4.

The embedding follows the source:
* the stock table (pandas DataFrame with columns Item, Quantidade) is a
  list of rows; rows with duplicate Item values are representable, since
  nothing in the source prevents them;
* the history table is a list of records with the six fixed columns
  Data, Usuario, Item, Movimento, Quantidade, Estoque_Apos;
* a spreadsheet workbook is a list of named sheets, a sheet being a list
  of column names together with rows of cells; a cell is a string, an
  integer, or a missing value (pandas NaN);
* the apply-movement button handler (app1.py lines 194-215) becomes the
  function aplicar_movimento; the ambient timestamp that Python reads
  with datetime.now() is passed in as an explicit string argument; the
  Python exceptions and st.error branches become an outcome datatype.
-/

namespace Estoque

/-- One row of the Estoque sheet: columns Item and Quantidade
(app1.py lines 83-88 coerce Item to a trimmed string and Quantidade to int). -/
structure StockRow where
  item : String
  quantidade : Int
deriving Repr, DecidableEq

/-- The stock table: ordered rows, duplicates representable. -/
abbrev Tabela := List StockRow

/-- One row of the Historico sheet, with the fixed column set installed by
ler_dados (app1.py line 93): Data, Usuario, Item, Movimento, Quantidade,
Estoque_Apos. -/
structure MovRecord where
  data : String
  usuario : String
  item : String
  movimento : String
  quantidade : Int
  estoque_apos : Int
deriving Repr, DecidableEq

/-- The history log: ordered list of movement records. -/
abbrev Historia := List MovRecord

/-- A spreadsheet cell: text, integer, or missing (pandas NaN). -/
inductive Cell where
  | vstr (s : String)
  | vint (n : Int)
  | vnan
deriving Repr, DecidableEq

/-- A sheet: named columns and rows of cells (a row is read positionally
against the column list). -/
structure Sheet where
  cols : List String
  rows : List (List Cell)
deriving Repr, DecidableEq

/-- A workbook: named sheets, as pandas ExcelFile exposes them. -/
abbrev Workbook := List (String × Sheet)

/-- ABA_ESTOQUE (app1.py line 10). -/
def ABA_ESTOQUE : String := "Estoque"

/-- ABA_HIST (app1.py line 11). -/
def ABA_HIST : String := "Historico"

/-- Python str.strip() (ASCII whitespace): drop whitespace from both ends. -/
def pyStrip (s : String) : String :=
  ⟨((s.data.dropWhile Char.isWhitespace).reverse.dropWhile
      Char.isWhitespace).reverse⟩

/-- Python str.upper() on the ASCII range. -/
def pyUpper (s : String) : String :=
  ⟨s.data.map Char.toUpper⟩

/-- Decimal digits to a natural number, none when empty or non-numeric. -/
def charsToNat? (cs : List Char) : Option Nat :=
  if cs = [] then none
  else if cs.all Char.isDigit then
    some (cs.foldl (fun n c => 10 * n + (c.toNat - 48)) 0)
  else none

/-- Parse of integer text, as pd.to_numeric accepts it on whole numbers:
an optional leading minus sign and decimal digits. -/
def strToInt? (s : String) : Option Int :=
  match s.data with
  | '-' :: rest => (charsToNat? rest).map (fun n => -(n : Int))
  | cs => (charsToNat? cs).map (fun n => (n : Int))

/-- Sheet lookup by name, as membership in ExcelFile.sheet_names followed
by read_excel. -/
def findSheet (wb : Workbook) (name : String) : Option Sheet :=
  (wb.find? (fun p => p.1 == name)).map (fun p => p.2)

/-- Positional cell access: the value of column c in a row, Cell.vnan when
the row is ragged. Only used when c is a column of the sheet. -/
def getCell (cols : List String) (row : List Cell) (c : String) : Cell :=
  match cols.findIdx? (fun d => d == c) with
  | some i => row.getD i Cell.vnan
  | none => Cell.vnan

/-- Column access with backfill: app1.py lines 93-95 install a column of
None for each fixed history column that is absent. -/
def colunaCell (sh : Sheet) (row : List Cell) (c : String) : Cell :=
  if c ∈ sh.cols then getCell sh.cols row c else Cell.vnan

/-- pandas Series.astype(str) on a cell: NaN prints as the string nan. -/
def cellToStr : Cell → String
  | .vstr s => s
  | .vint n => toString n
  | .vnan => "nan"

/-- fillna of the empty string followed by astype(str)
(app1.py lines 102-105). -/
def cellToStrFill : Cell → String
  | .vstr s => s
  | .vint n => toString n
  | .vnan => ""

/-- pd.to_numeric with errors coerce, then fillna(0).astype(int)
(app1.py lines 88, 106, 107): integers pass through, numeric text parses,
everything else becomes 0. -/
def cellToInt : Cell → Int
  | .vint n => n
  | .vstr s => (strToInt? s).getD 0
  | .vnan => 0

/-- Decoding of one Estoque row (app1.py lines 87-88). -/
def lerStockRow (cols : List String) (row : List Cell) : StockRow :=
  { item := pyStrip (cellToStr (getCell cols row "Item"))
    quantidade := cellToInt (getCell cols row "Quantidade") }

/-- Normalisation of one Historico row (app1.py lines 93-107): missing
columns are backfilled as None, then Data/Usuario/Item/Movimento are
fillna-empty strings (the last three trimmed, Movimento also uppercased)
and Quantidade/Estoque_Apos are coerced to int. -/
def lerHistRow (sh : Sheet) (row : List Cell) : MovRecord :=
  { data := cellToStrFill (colunaCell sh row "Data")
    usuario := pyStrip (cellToStrFill (colunaCell sh row "Usuario"))
    item := pyStrip (cellToStrFill (colunaCell sh row "Item"))
    movimento := pyUpper (pyStrip (cellToStrFill (colunaCell sh row "Movimento")))
    quantidade := cellToInt (colunaCell sh row "Quantidade")
    estoque_apos := cellToInt (colunaCell sh row "Estoque_Apos") }

/-- ler_dados (app1.py lines 72-109): decode a workbook into the stock
table and the history log, or fail with the source's error message. -/
def ler_dados (wb : Workbook) : Except String (Tabela × Historia) :=
  match findSheet wb ABA_ESTOQUE with
  | none => .error "Não encontrei a aba Estoque no Excel."
  | some sh =>
    if "Item" ∈ sh.cols ∧ "Quantidade" ∈ sh.cols then
      let df := sh.rows.map (lerStockRow sh.cols)
      let hist :=
        match findSheet wb ABA_HIST with
        | some hsh =>
          -- the normalisation block runs only when hist is nonempty
          -- (app1.py line 101); with zero rows both branches yield []
          if hsh.rows.isEmpty then [] else hsh.rows.map (lerHistRow hsh)
        | none => []
      .ok (df, hist)
    else .error "A aba Estoque precisa ter colunas: Item e Quantidade."

/-- The fixed history column set (app1.py lines 93, 96, 98). -/
def histCols : List String :=
  ["Data", "Usuario", "Item", "Movimento", "Quantidade", "Estoque_Apos"]

/-- Serialisation of one stock row for the Estoque sheet. -/
def escreverStockRow (r : StockRow) : List Cell :=
  [.vstr r.item, .vint r.quantidade]

/-- Serialisation of one history record for the Historico sheet. -/
def escreverHistRow (r : MovRecord) : List Cell :=
  [.vstr r.data, .vstr r.usuario, .vstr r.item, .vstr r.movimento,
   .vint r.quantidade, .vint r.estoque_apos]

/-- Lexicographic comparison of strings by code point, the order
sort_values uses on a text column. -/
def charsLe : List Char → List Char → Bool
  | [], _ => true
  | _ :: _, [] => false
  | a :: as, b :: bs =>
    if a.toNat < b.toNat then true
    else if b.toNat < a.toNat then false
    else charsLe as bs

/-- df.sort_values on the Item column (app1.py line 116): reorder the rows
so that Item values ascend. -/
def sortEstoque (df : Tabela) : Tabela :=
  List.insertionSort (fun a b => charsLe a.item.data b.item.data = true) df

/-- gerar_excel_bytes (app1.py lines 112-119): encode the two tables as a
workbook with the Estoque sheet sorted by Item and the Historico sheet in
its existing order. -/
def gerar_excel_bytes (df : Tabela) (hist : Historia) : Workbook :=
  [(ABA_ESTOQUE, ⟨["Item", "Quantidade"], (sortEstoque df).map escreverStockRow⟩),
   (ABA_HIST, ⟨histCols, hist.map escreverHistRow⟩)]

/-- registrar_movimento (app1.py lines 125-141): append one record to the
history. The timestamp that the source takes from datetime.now() is passed
in as the explicit argument dataAtual. -/
def registrar_movimento (hist : Historia) (usuario item movimento : String)
    (qtd estoque_apos : Int) (dataAtual : String) : Historia :=
  hist ++ [{ data := dataAtual, usuario := usuario, item := item,
             movimento := movimento, quantidade := qtd,
             estoque_apos := estoque_apos }]

/-- Outcome of one press of the apply-movement button. -/
inductive MovOutcome where
  /-- rejection by st.error asking for the operator name (app1.py line 197). -/
  | emptyUserError
  /-- the IndexError raised by iloc[0] on an empty selection when the item
  has no row in the stock table (app1.py line 199). -/
  | lookupError
  /-- rejection by st.error for insufficient stock, carrying the current
  quantity shown in the message (app1.py line 202). -/
  | insufficientError (atual : Int)
  /-- the movement was applied with the given new balance (app1.py
  lines 204-206). -/
  | applied (novo : Int)
deriving Repr, DecidableEq

/-- Result of one press of the apply-movement button: the two tables after
the press and the outcome. -/
structure MovResult where
  df : Tabela
  hist : Historia
  outcome : MovOutcome
deriving Repr, DecidableEq

/-- The current quantity read by the handler:
int(df.loc[df[Item] == item_sel, Quantidade].iloc[0]) reads the first row
whose Item matches (app1.py line 199); none when no row matches. -/
def firstQuantidade (df : Tabela) (item : String) : Option Int :=
  ((df.filter (fun r => r.item = item)).head?).map (fun r => r.quantidade)

/-- The write-back df.loc[df[Item] == item_sel, Quantidade] = novo
(app1.py line 205): every row whose Item matches receives the new value. -/
def setQuantidade (df : Tabela) (item : String) (novo : Int) : Tabela :=
  df.map (fun r => if r.item = item then { r with quantidade := novo } else r)

/-- The apply-movement button handler (app1.py lines 194-206): trim the
session user name, reject when it is empty; read the current quantity of
the selected item from the first matching row (IndexError when absent);
reject a SAIDA larger than the current quantity; otherwise compute the new
balance, write it to every matching row and append a history record. -/
def aplicar_movimento (df : Tabela) (hist : Historia)
    (usuarioRaw item movimento : String) (qtd : Int) (dataAtual : String) :
    MovResult :=
  let usuario := pyStrip usuarioRaw
  if usuario = "" then
    ⟨df, hist, .emptyUserError⟩
  else
    match (df.filter (fun r => r.item = item)).head? with
    | none => ⟨df, hist, .lookupError⟩
    | some r0 =>
      let atual := r0.quantidade
      if movimento = "SAIDA" ∧ qtd > atual then
        ⟨df, hist, .insufficientError atual⟩
      else
        let novo := if movimento = "ENTRADA" then atual + qtd else atual - qtd
        ⟨setQuantidade df item novo,
         registrar_movimento hist usuario item movimento qtd novo dataAtual,
         .applied novo⟩

/-- The most recent history record for an item: the last row of the
per-item selection hist[hist[Item] == item] (app1.py line 232 displays it;
appension order is insertion order). -/
def ultimoRegistro (hist : Historia) (item : String) : Option MovRecord :=
  (hist.filter (fun r => r.item = item)).getLast?

/-- The core correctness invariant: the Estoque_Apos of the most recent
record for every item equals that item's current quantity as the handler
reads it. -/
def invarianteSaldo (df : Tabela) (hist : Historia) : Prop :=
  ∀ item r, ultimoRegistro hist item = some r →
    firstQuantidade df item = some r.estoque_apos

/-- One operator request as collected by the sidebar form
(app1.py lines 181-192): session user name, selected item, movement kind,
quantity, plus the ambient timestamp. -/
structure Requisicao where
  usuario : String
  item : String
  movimento : String
  qtd : Int
  data : String
deriving Repr, DecidableEq

/-- The in-memory application state: the pair of tables. -/
structure Estado where
  df : Tabela
  hist : Historia
deriving Repr, DecidableEq

/-- One interaction cycle: press the apply-movement button once and keep
the resulting tables (rejections leave them unchanged). -/
def aplicarPasso (s : Estado) (req : Requisicao) : Estado :=
  let res := aplicar_movimento s.df s.hist req.usuario req.item
    req.movimento req.qtd req.data
  ⟨res.df, res.hist⟩

/-- A sequence of interaction cycles. -/
def aplicarTodos (s : Estado) (reqs : List Requisicao) : Estado :=
  reqs.foldl aplicarPasso s

/-- Total ENTRADA quantity recorded for an item, as the dashboard computes
it (app1.py line 222). -/
def somaEntradas (hist : Historia) (item : String) : Int :=
  ((hist.filter (fun r => r.item = item ∧ r.movimento = "ENTRADA")).map
    (fun r => r.quantidade)).sum

/-- Total SAIDA quantity recorded for an item, as the dashboard computes
it (app1.py line 223). -/
def somaSaidas (hist : Historia) (item : String) : Int :=
  ((hist.filter (fun r => r.item = item ∧ r.movimento = "SAIDA")).map
    (fun r => r.quantidade)).sum

/-- A history record already carries the coercions that ler_dados applies:
trimmed user and item, trimmed uppercase movement kind. -/
def movRecordNormalizado (r : MovRecord) : Prop :=
  pyStrip r.usuario = r.usuario ∧ pyStrip r.item = r.item ∧
    pyStrip r.movimento = r.movimento ∧ pyUpper r.movimento = r.movimento

instance (r : MovRecord) : Decidable (movRecordNormalizado r) := by
  unfold movRecordNormalizado
  exact inferInstance

end Estoque

namespace Estoque

example :
    aplicar_movimento [⟨"Bolt", 10⟩] [] "Ana" "Bolt" "SAIDA" 12 "t" =
      ⟨[⟨"Bolt", 10⟩], [], .insufficientError 10⟩ := by decide

example :
    aplicar_movimento [⟨"Bolt", 10⟩] [] "Ana" "Bolt" "ENTRADA" 5 "t" =
      ⟨[⟨"Bolt", 15⟩], [⟨"t", "Ana", "Bolt", "ENTRADA", 5, 15⟩],
       .applied 15⟩ := by decide

example :
    aplicar_movimento [⟨"Bolt", 10⟩] [] "Ana" "Bolt" "SAIDA" 10 "t" =
      ⟨[⟨"Bolt", 0⟩], [⟨"t", "Ana", "Bolt", "SAIDA", 10, 0⟩],
       .applied 0⟩ := by decide

example :
    ler_dados (gerar_excel_bytes [⟨"Bolt", 10⟩] []) =
      .ok ([⟨"Bolt", 10⟩], []) := rfl

example :
    ler_dados [("Estoque", ⟨["Item"], []⟩)] =
      .error "A aba Estoque precisa ter colunas: Item e Quantidade." := rfl

end Estoque

namespace Estoque

theorem head_filter_of_firstQuantidade {df : Tabela} {item : String}
    {atual : Int} (hq : firstQuantidade df item = some atual) :
    ∃ r0, (df.filter (fun r => r.item = item)).head? = some r0 ∧
      r0.quantidade = atual := by
  cases h : (df.filter (fun r => r.item = item)).head? with
  | none => simp [firstQuantidade, h] at hq
  | some r =>
    refine ⟨r, rfl, ?_⟩
    simpa [firstQuantidade, h] using hq

/-- Evaluation of the handler in the accepted case. -/
theorem aplicar_movimento_aceito (df : Tabela) (hist : Historia)
    (u item movimento : String) (qtd : Int) (d : String) (r0 : StockRow)
    (hu : pyStrip u ≠ "")
    (hr0 : (df.filter (fun r => r.item = item)).head? = some r0)
    (hacc : ¬(movimento = "SAIDA" ∧ qtd > r0.quantidade)) :
    aplicar_movimento df hist u item movimento qtd d =
      ⟨setQuantidade df item
         (if movimento = "ENTRADA" then r0.quantidade + qtd
          else r0.quantidade - qtd),
       registrar_movimento hist (pyStrip u) item movimento qtd
         (if movimento = "ENTRADA" then r0.quantidade + qtd
          else r0.quantidade - qtd) d,
       .applied (if movimento = "ENTRADA" then r0.quantidade + qtd
          else r0.quantidade - qtd)⟩ := by
  unfold aplicar_movimento
  simp [hu, hr0, hacc]

/-- C10: a movement request with a user name that is empty after trimming
is rejected before anything happens: both tables are returned unchanged
and the outcome is the st.error message asking for the name
(app1.py lines 195-197); in particular no upload is attempted. -/
theorem c10_usuario_vazio (df : Tabela) (hist : Historia)
    (u item movimento : String) (qtd : Int) (d : String)
    (hu : pyStrip u = "") :
    aplicar_movimento df hist u item movimento qtd d =
      ⟨df, hist, .emptyUserError⟩ := by
  unfold aplicar_movimento
  simp [hu]

theorem c10_witness :
    pyStrip "   " = "" ∧
      aplicar_movimento [⟨"Bolt", 10⟩] [] "   " "Bolt" "ENTRADA" 1 "t" =
        ⟨[⟨"Bolt", 10⟩], [], .emptyUserError⟩ :=
  ⟨by decide,
   c10_usuario_vazio [⟨"Bolt", 10⟩] [] "   " "Bolt" "ENTRADA" 1 "t"
     (by decide)⟩

/-- C8: a movement request naming an item with no row in the stock table
produces no normal result: the iloc[0] lookup on the empty selection
raises an IndexError (modelled as the lookupError outcome), no
NotFoundError exists anywhere in the source, and neither table is
modified (app1.py line 199). -/
theorem c8_item_inexistente (df : Tabela) (hist : Historia)
    (u item movimento : String) (qtd : Int) (d : String)
    (hu : pyStrip u ≠ "")
    (hnada : firstQuantidade df item = none) :
    aplicar_movimento df hist u item movimento qtd d =
      ⟨df, hist, .lookupError⟩ := by
  have h1 : (df.filter (fun r => r.item = item)).head? = none := by
    simpa [firstQuantidade] using hnada
  unfold aplicar_movimento
  simp [hu, h1]

theorem c8_witness :
    pyStrip "Ana" ≠ "" ∧
      firstQuantidade [⟨"Bolt", 10⟩] "Screw" = none ∧
      aplicar_movimento [⟨"Bolt", 10⟩] [] "Ana" "Screw" "ENTRADA" 1 "t" =
        ⟨[⟨"Bolt", 10⟩], [], .lookupError⟩ :=
  ⟨by decide, by decide,
   c8_item_inexistente [⟨"Bolt", 10⟩] [] "Ana" "Screw" "ENTRADA" 1 "t"
     (by decide) (by decide)⟩

/-- C1: a SAIDA movement on an item present in stock, with a positive
quantity strictly greater than the current quantity, is rejected with the
insufficient-stock error carrying the current quantity, and both the
stock table and the history are returned completely unmodified
(app1.py lines 201-202). -/
theorem c1_saida_insuficiente (df : Tabela) (hist : Historia)
    (u item : String) (qtd atual : Int) (d : String)
    (hu : pyStrip u ≠ "") (hpos : 0 < qtd)
    (hq : firstQuantidade df item = some atual) (hgt : atual < qtd) :
    aplicar_movimento df hist u item "SAIDA" qtd d =
      ⟨df, hist, .insufficientError atual⟩ := by
  obtain ⟨r0, hr0, hq0⟩ := head_filter_of_firstQuantidade hq
  unfold aplicar_movimento
  simp [hu, hr0, hq0, hgt]

theorem c1_witness :
    pyStrip "Ana" ≠ "" ∧ (0 : Int) < 12 ∧
      firstQuantidade [⟨"Bolt", 10⟩] "Bolt" = some 10 ∧ (10 : Int) < 12 ∧
      aplicar_movimento [⟨"Bolt", 10⟩] [] "Ana" "Bolt" "SAIDA" 12 "t" =
        ⟨[⟨"Bolt", 10⟩], [], .insufficientError 10⟩ :=
  ⟨by decide, by decide, by decide, by decide,
   c1_saida_insuficiente [⟨"Bolt", 10⟩] [] "Ana" "Bolt" 12 10 "t"
     (by decide) (by decide) (by decide) (by decide)⟩

/-- C2: an accepted movement on an item present in stock with a positive
quantity yields new balance atual + qtd for ENTRADA and atual - qtd for
SAIDA; a SAIDA with qtd equal to the current quantity is accepted and
drives the balance to exactly 0, with no further check
(app1.py lines 201-206). -/
theorem c2_saldo_movimento (df : Tabela) (hist : Historia)
    (u item movimento : String) (qtd atual : Int) (d : String)
    (hu : pyStrip u ≠ "") (hpos : 0 < qtd)
    (hq : firstQuantidade df item = some atual)
    (hok : movimento = "ENTRADA" ∨ (movimento = "SAIDA" ∧ qtd ≤ atual)) :
    aplicar_movimento df hist u item movimento qtd d =
      ⟨setQuantidade df item
         (if movimento = "ENTRADA" then atual + qtd else atual - qtd),
       registrar_movimento hist (pyStrip u) item movimento qtd
         (if movimento = "ENTRADA" then atual + qtd else atual - qtd) d,
       .applied
         (if movimento = "ENTRADA" then atual + qtd else atual - qtd)⟩ := by
  obtain ⟨r0, hr0, hq0⟩ := head_filter_of_firstQuantidade hq
  have hacc : ¬(movimento = "SAIDA" ∧ qtd > r0.quantidade) := by
    rcases hok with h | ⟨h1, h2⟩
    · rintro ⟨hs, -⟩
      rw [h] at hs
      exact absurd hs (by decide)
    · rintro ⟨-, hgt⟩
      rw [hq0] at hgt
      omega
  rw [aplicar_movimento_aceito df hist u item movimento qtd d r0 hu hr0 hacc,
    hq0]

theorem c2_witness :
    pyStrip "Ana" ≠ "" ∧ (0 : Int) < 10 ∧
      firstQuantidade [⟨"Bolt", 10⟩] "Bolt" = some 10 ∧
      ("SAIDA" = "ENTRADA" ∨ ("SAIDA" = "SAIDA" ∧ (10 : Int) ≤ 10)) ∧
      aplicar_movimento [⟨"Bolt", 10⟩] [] "Ana" "Bolt" "SAIDA" 10 "t" =
        ⟨setQuantidade [⟨"Bolt", 10⟩] "Bolt"
           (if "SAIDA" = "ENTRADA" then 10 + 10 else 10 - 10),
         registrar_movimento [] (pyStrip "Ana") "Bolt" "SAIDA" 10
           (if "SAIDA" = "ENTRADA" then 10 + 10 else 10 - 10) "t",
         .applied (if "SAIDA" = "ENTRADA" then 10 + 10 else 10 - 10)⟩ :=
  ⟨by decide, by decide, by decide, Or.inr ⟨rfl, by decide⟩,
   c2_saldo_movimento [⟨"Bolt", 10⟩] [] "Ana" "Bolt" "SAIDA" 10 10 "t"
     (by decide) (by decide) (by decide) (Or.inr ⟨rfl, by decide⟩)⟩

end Estoque

namespace Estoque

/-- C9: with duplicate rows for the same Item, the handler reads the
current quantity from the first matching row only (iloc[0], app1.py
line 199) but writes the computed balance to every matching row
(the df.loc assignment, line 205); afterwards all duplicate rows hold the
same quantity novo, and the recorded Estoque_Apos reflects only the first
row's prior value. -/
theorem c9_linhas_duplicadas (df : Tabela) (hist : Historia)
    (u item movimento : String) (qtd novo : Int) (d : String)
    (r0 : StockRow)
    (hu : pyStrip u ≠ "")
    (hr0 : (df.filter (fun r => r.item = item)).head? = some r0)
    (hacc : ¬(movimento = "SAIDA" ∧ qtd > r0.quantidade))
    (hnovo : novo = if movimento = "ENTRADA" then r0.quantidade + qtd
      else r0.quantidade - qtd) :
    aplicar_movimento df hist u item movimento qtd d =
      ⟨setQuantidade df item novo,
       registrar_movimento hist (pyStrip u) item movimento qtd novo d,
       .applied novo⟩ ∧
      ∀ r ∈ setQuantidade df item novo, r.item = item →
        r.quantidade = novo := by
  constructor
  · rw [hnovo]
    exact aplicar_movimento_aceito df hist u item movimento qtd d r0 hu
      hr0 hacc
  · intro r hr hitem
    simp only [setQuantidade, List.mem_map] at hr
    obtain ⟨s, hs, rfl⟩ := hr
    by_cases h : s.item = item
    · simp [h]
    · simp only [if_neg h] at hitem ⊢
      exact absurd hitem h

theorem c9_witness :
    pyStrip "Ana" ≠ "" ∧
      (([⟨"Bolt", 10⟩, ⟨"Bolt", 3⟩] : Tabela).filter
        (fun r => r.item = "Bolt")).head? = some ⟨"Bolt", 10⟩ ∧
      ¬("ENTRADA" = "SAIDA" ∧ (5 : Int) > (10 : Int)) ∧
      (15 : Int) = (if "ENTRADA" = "ENTRADA" then (10 : Int) + 5
        else (10 : Int) - 5) ∧
      (aplicar_movimento [⟨"Bolt", 10⟩, ⟨"Bolt", 3⟩] [] "Ana" "Bolt"
          "ENTRADA" 5 "t" =
        ⟨setQuantidade [⟨"Bolt", 10⟩, ⟨"Bolt", 3⟩] "Bolt" 15,
         registrar_movimento [] (pyStrip "Ana") "Bolt" "ENTRADA" 5 15 "t",
         .applied 15⟩ ∧
       ∀ r ∈ setQuantidade [⟨"Bolt", 10⟩, ⟨"Bolt", 3⟩] "Bolt" 15,
         r.item = "Bolt" → r.quantidade = 15) :=
  ⟨by decide, by decide, by decide, by decide,
   c9_linhas_duplicadas [⟨"Bolt", 10⟩, ⟨"Bolt", 3⟩] [] "Ana" "Bolt"
     "ENTRADA" 5 15 "t" ⟨"Bolt", 10⟩ (by decide) (by decide) (by decide)
     (by decide)⟩

theorem item_setQuantidade (i : String) (novo : Int) (r : StockRow) :
    (if r.item = i then { r with quantidade := novo } else r).item =
      r.item := by
  by_cases h : r.item = i <;> simp [h]

theorem filter_setQuantidade (df : Tabela) (i j : String) (novo : Int) :
    (setQuantidade df i novo).filter (fun r => r.item = j) =
      (df.filter (fun r => r.item = j)).map
        (fun r => if r.item = i then { r with quantidade := novo }
          else r) := by
  unfold setQuantidade
  rw [List.filter_map]
  have hp : ((fun r : StockRow => decide (r.item = j)) ∘
      (fun r => if r.item = i then { r with quantidade := novo }
        else r)) = (fun r : StockRow => decide (r.item = j)) := by
    funext r
    simp [Function.comp, item_setQuantidade]
  rw [hp]

theorem firstQuantidade_setQuantidade_eq (df : Tabela) (i : String)
    (novo : Int) (r0 : StockRow)
    (hr0 : (df.filter (fun r => r.item = i)).head? = some r0) :
    firstQuantidade (setQuantidade df i novo) i = some novo := by
  have hmem : r0 ∈ df.filter (fun r => r.item = i) :=
    List.mem_of_mem_head? (Option.mem_def.mpr hr0)
  have hitem : r0.item = i := by
    simpa using (List.mem_filter.mp hmem).2
  unfold firstQuantidade
  rw [filter_setQuantidade, List.head?_map, hr0]
  simp [hitem]

theorem firstQuantidade_setQuantidade_ne (df : Tabela) (i j : String)
    (novo : Int) (hne : j ≠ i) :
    firstQuantidade (setQuantidade df i novo) j = firstQuantidade df j := by
  unfold firstQuantidade
  rw [filter_setQuantidade, List.head?_map]
  cases h : (df.filter (fun r => r.item = j)).head? with
  | none => simp
  | some r1 =>
    have hmem : r1 ∈ df.filter (fun r => r.item = j) :=
      List.mem_of_mem_head? (Option.mem_def.mpr h)
    have h1 : r1.item = j := by
      simpa using (List.mem_filter.mp hmem).2
    simp [h1, hne]

theorem ultimoRegistro_append_self (hist : Historia) (rec : MovRecord) :
    ultimoRegistro (hist ++ [rec]) rec.item = some rec := by
  simp [ultimoRegistro, List.filter_append]

theorem ultimoRegistro_append_ne (hist : Historia) (rec : MovRecord)
    (j : String) (hne : j ≠ rec.item) :
    ultimoRegistro (hist ++ [rec]) j = ultimoRegistro hist j := by
  have hne2 : ¬(rec.item = j) := fun h => hne h.symm
  simp [ultimoRegistro, List.filter_append, hne2]

/-- C3: the equivalence between the Estoque_Apos of an item's most recent
history record and that item's current quantity is an invariant: one press
of the apply-movement button, rejected or accepted, preserves it
(app1.py lines 199-206); for the moved item the freshly appended record
carries exactly the balance written back to the stock table. -/
theorem c3_invariante_preservado (df : Tabela) (hist : Historia)
    (u item movimento : String) (qtd : Int) (d : String)
    (hinv : invarianteSaldo df hist) :
    invarianteSaldo (aplicar_movimento df hist u item movimento qtd d).df
      (aplicar_movimento df hist u item movimento qtd d).hist := by
  unfold aplicar_movimento
  by_cases hu : pyStrip u = ""
  · simpa [hu] using hinv
  · cases hr : (df.filter (fun r => r.item = item)).head? with
    | none => simpa [hu, hr] using hinv
    | some r0 =>
      by_cases hrej : movimento = "SAIDA" ∧ qtd > r0.quantidade
      · simpa [hu, hr, hrej] using hinv
      · simp only [hu, hr, hrej, if_false]
        intro j r hj
        unfold registrar_movimento at hj
        by_cases hji : j = item
        · subst hji
          have hself := ultimoRegistro_append_self hist
            ⟨d, pyStrip u, j, movimento, qtd,
             if movimento = "ENTRADA" then r0.quantidade + qtd
             else r0.quantidade - qtd⟩
          rw [hself] at hj
          cases hj
          exact firstQuantidade_setQuantidade_eq df j _ r0 hr
        · rw [ultimoRegistro_append_ne hist _ j hji] at hj
          rw [firstQuantidade_setQuantidade_ne df item j _ hji]
          exact hinv j r hj

theorem c3_witness :
    invarianteSaldo [⟨"Bolt", 10⟩] [] ∧
      invarianteSaldo
        (aplicar_movimento [⟨"Bolt", 10⟩] [] "Ana" "Bolt" "ENTRADA" 5
          "t").df
        (aplicar_movimento [⟨"Bolt", 10⟩] [] "Ana" "Bolt" "ENTRADA" 5
          "t").hist := by
  have h0 : invarianteSaldo [⟨"Bolt", 10⟩] [] := by
    intro item r hr
    simp [ultimoRegistro] at hr
  exact ⟨h0, c3_invariante_preservado _ _ _ _ _ _ _ h0⟩

end Estoque

namespace Estoque

/-- C6: decode fails with the source's ValueError (FormatError) when the
Estoque sheet is absent (app1.py lines 80-81) or when the sheet lacks the
Item or the Quantidade column (lines 84-85); no tables are returned. -/
theorem c6_erro_formato (wb : Workbook)
    (hbad : findSheet wb ABA_ESTOQUE = none ∨
      ∃ sh, findSheet wb ABA_ESTOQUE = some sh ∧
        ¬("Item" ∈ sh.cols ∧ "Quantidade" ∈ sh.cols)) :
    ∃ e, ler_dados wb = .error e := by
  unfold ler_dados
  rcases hbad with h | ⟨sh, hsh, hcols⟩
  · rw [h]
    exact ⟨_, rfl⟩
  · rw [hsh]
    refine ⟨"A aba Estoque precisa ter colunas: Item e Quantidade.", ?_⟩
    simp [hcols]

theorem c6_witness :
    (findSheet [("Planilha", ⟨["Item", "Quantidade"], []⟩)] ABA_ESTOQUE =
        none ∨
      ∃ sh, findSheet [("Planilha", ⟨["Item", "Quantidade"], []⟩)]
          ABA_ESTOQUE = some sh ∧
        ¬("Item" ∈ sh.cols ∧ "Quantidade" ∈ sh.cols)) ∧
      ∃ e, ler_dados [("Planilha", ⟨["Item", "Quantidade"], []⟩)] =
        .error e :=
  ⟨Or.inl rfl,
   c6_erro_formato [("Planilha", ⟨["Item", "Quantidade"], []⟩)]
     (Or.inl rfl)⟩

theorem pyStrip_vazio : pyStrip "" = "" := rfl

theorem pyUpper_vazio : pyUpper "" = "" := rfl

/-- C7: with a well-formed Estoque sheet, a workbook without a Historico
sheet decodes successfully to an empty history (whose fixed column set is
the record type itself, app1.py line 98); and when a Historico sheet is
present, any missing history column is backfilled as an empty value (empty
string for the text columns, 0 for the numeric ones, app1.py
lines 93-107) instead of failing. -/
theorem c7_historico_opcional (wb : Workbook) (sh : Sheet)
    (hsh : findSheet wb ABA_ESTOQUE = some sh)
    (hcols : "Item" ∈ sh.cols ∧ "Quantidade" ∈ sh.cols) :
    (findSheet wb ABA_HIST = none →
      ler_dados wb = .ok (sh.rows.map (lerStockRow sh.cols), [])) ∧
    (∀ hsh2, findSheet wb ABA_HIST = some hsh2 →
      ∃ hist, ler_dados wb =
          .ok (sh.rows.map (lerStockRow sh.cols), hist) ∧
        ∀ rec ∈ hist,
          ("Data" ∉ hsh2.cols → rec.data = "") ∧
          ("Usuario" ∉ hsh2.cols → rec.usuario = "") ∧
          ("Item" ∉ hsh2.cols → rec.item = "") ∧
          ("Movimento" ∉ hsh2.cols → rec.movimento = "") ∧
          ("Quantidade" ∉ hsh2.cols → rec.quantidade = 0) ∧
          ("Estoque_Apos" ∉ hsh2.cols → rec.estoque_apos = 0)) := by
  constructor
  · intro hnone
    unfold ler_dados
    rw [hsh, hnone]
    simp [hcols]
  · intro hsh2 h2
    unfold ler_dados
    simp only [hsh, h2, if_pos hcols]
    refine ⟨_, rfl, ?_⟩
    intro rec hrec
    by_cases hemp : hsh2.rows.isEmpty
    · rw [if_pos hemp] at hrec
      cases hrec
    · rw [if_neg hemp] at hrec
      obtain ⟨row, hrow, rfl⟩ := List.mem_map.mp hrec
      refine ⟨?_, ?_, ?_, ?_, ?_, ?_⟩ <;> intro hnot <;>
        simp [lerHistRow, colunaCell, hnot, cellToStrFill, cellToInt,
          pyStrip_vazio, pyUpper_vazio]

theorem c7_witness :
    findSheet [("Estoque", ⟨["Item", "Quantidade"], []⟩)] ABA_ESTOQUE =
        some ⟨["Item", "Quantidade"], []⟩ ∧
      ("Item" ∈ (["Item", "Quantidade"] : List String) ∧
        "Quantidade" ∈ (["Item", "Quantidade"] : List String)) ∧
      ((findSheet [("Estoque", ⟨["Item", "Quantidade"], []⟩)] ABA_HIST =
          none →
        ler_dados [("Estoque", ⟨["Item", "Quantidade"], []⟩)] =
          .ok (([] : List (List Cell)).map
            (lerStockRow ["Item", "Quantidade"]), [])) ∧
      (∀ hsh2, findSheet [("Estoque", ⟨["Item", "Quantidade"], []⟩)]
          ABA_HIST = some hsh2 →
        ∃ hist, ler_dados [("Estoque", ⟨["Item", "Quantidade"], []⟩)] =
            .ok (([] : List (List Cell)).map
              (lerStockRow ["Item", "Quantidade"]), hist) ∧
          ∀ rec ∈ hist,
            ("Data" ∉ hsh2.cols → rec.data = "") ∧
            ("Usuario" ∉ hsh2.cols → rec.usuario = "") ∧
            ("Item" ∉ hsh2.cols → rec.item = "") ∧
            ("Movimento" ∉ hsh2.cols → rec.movimento = "") ∧
            ("Quantidade" ∉ hsh2.cols → rec.quantidade = 0) ∧
            ("Estoque_Apos" ∉ hsh2.cols → rec.estoque_apos = 0))) :=
  ⟨rfl, by decide,
   c7_historico_opcional [("Estoque", ⟨["Item", "Quantidade"], []⟩)]
     ⟨["Item", "Quantidade"], []⟩ rfl (by decide)⟩

end Estoque

namespace Estoque

theorem ler_escrever_stock (r : StockRow)
    (hr : pyStrip r.item = r.item) :
    lerStockRow ["Item", "Quantidade"] (escreverStockRow r) = r := by
  have h1 : lerStockRow ["Item", "Quantidade"] (escreverStockRow r) =
      ⟨pyStrip r.item, r.quantidade⟩ := rfl
  rw [h1, hr]

theorem ler_escrever_hist (rows : List (List Cell)) (r : MovRecord)
    (hr : movRecordNormalizado r) :
    lerHistRow ⟨histCols, rows⟩ (escreverHistRow r) = r := by
  obtain ⟨h1, h2, h3, h4⟩ := hr
  have he : lerHistRow ⟨histCols, rows⟩ (escreverHistRow r) =
      ⟨r.data, pyStrip r.usuario, pyStrip r.item,
       pyUpper (pyStrip r.movimento), r.quantidade, r.estoque_apos⟩ := rfl
  rw [he, h1, h2, h3, h4]

/-- C5: decoding the workbook produced by encoding (s, h) yields the pair
(s, h) itself, up to re-sorting the stock rows by Item and provided both
tables already carry the coercions that decode applies (trimmed Item and
Usuario strings, trimmed uppercase Movimento): the stock contents and the
full ordered history are preserved (app1.py lines 72-119). -/
theorem c5_roundtrip (s : Tabela) (h : Historia)
    (hs : ∀ r ∈ s, pyStrip r.item = r.item)
    (hh : ∀ r ∈ h, movRecordNormalizado r) :
    ler_dados (gerar_excel_bytes s h) = .ok (sortEstoque s, h) := by
  have hred : ler_dados (gerar_excel_bytes s h) =
      .ok (((sortEstoque s).map escreverStockRow).map
          (lerStockRow ["Item", "Quantidade"]),
        if (h.map escreverHistRow).isEmpty then []
        else (h.map escreverHistRow).map
          (lerHistRow ⟨histCols, h.map escreverHistRow⟩)) := rfl
  rw [hred]
  have hstock : ((sortEstoque s).map escreverStockRow).map
      (lerStockRow ["Item", "Quantidade"]) = sortEstoque s := by
    rw [List.map_map]
    have hcong : ∀ r ∈ sortEstoque s,
        (lerStockRow ["Item", "Quantidade"] ∘ escreverStockRow) r =
          id r := by
      intro r hrmem
      have hrs : r ∈ s := by
        unfold sortEstoque at hrmem
        exact (List.mem_insertionSort _).mp hrmem
      exact ler_escrever_stock r (hs r hrs)
    rw [List.map_congr_left hcong, List.map_id]
  have hhist : (if (h.map escreverHistRow).isEmpty then []
      else (h.map escreverHistRow).map
        (lerHistRow ⟨histCols, h.map escreverHistRow⟩)) = h := by
    cases h with
    | nil => rfl
    | cons a t =>
      rw [if_neg (by simp)]
      rw [List.map_map]
      have hcong : ∀ r ∈ a :: t,
          (lerHistRow ⟨histCols, (a :: t).map escreverHistRow⟩ ∘
            escreverHistRow) r = id r := by
        intro r hrmem
        exact ler_escrever_hist _ r (hh r hrmem)
      rw [List.map_congr_left hcong, List.map_id]
  rw [hstock, hhist]

theorem c5_witness :
    (∀ r ∈ ([⟨"Screw", 3⟩, ⟨"Bolt", 10⟩] : Tabela),
      pyStrip r.item = r.item) ∧
      (∀ r ∈ ([⟨"01/01/2025 10:00", "Ana", "Bolt", "ENTRADA", 5, 15⟩] :
          Historia), movRecordNormalizado r) ∧
      ler_dados (gerar_excel_bytes [⟨"Screw", 3⟩, ⟨"Bolt", 10⟩]
          [⟨"01/01/2025 10:00", "Ana", "Bolt", "ENTRADA", 5, 15⟩]) =
        .ok (sortEstoque [⟨"Screw", 3⟩, ⟨"Bolt", 10⟩],
          [⟨"01/01/2025 10:00", "Ana", "Bolt", "ENTRADA", 5, 15⟩]) :=
  ⟨by decide, by decide,
   c5_roundtrip [⟨"Screw", 3⟩, ⟨"Bolt", 10⟩]
     [⟨"01/01/2025 10:00", "Ana", "Bolt", "ENTRADA", 5, 15⟩]
     (by decide) (by decide)⟩

end Estoque

namespace Estoque

theorem somaEntradas_cons (rec : MovRecord) (hist : Historia)
    (item : String) :
    somaEntradas (rec :: hist) item =
      (if rec.item = item ∧ rec.movimento = "ENTRADA" then rec.quantidade
        else 0) + somaEntradas hist item := by
  unfold somaEntradas
  by_cases hc : rec.item = item ∧ rec.movimento = "ENTRADA"
  · simp [List.filter_cons, hc]
  · simp [List.filter_cons, hc]

theorem somaSaidas_cons (rec : MovRecord) (hist : Historia)
    (item : String) :
    somaSaidas (rec :: hist) item =
      (if rec.item = item ∧ rec.movimento = "SAIDA" then rec.quantidade
        else 0) + somaSaidas hist item := by
  unfold somaSaidas
  by_cases hc : rec.item = item ∧ rec.movimento = "SAIDA"
  · simp [List.filter_cons, hc]
  · simp [List.filter_cons, hc]

/-- One press of the button either leaves the state exactly as it was
(any rejection) or applies the movement read from the first matching
stock row. -/
theorem aplicarPasso_shape (s : Estado) (req : Requisicao) :
    aplicarPasso s req = s ∨
    ∃ r0, (s.df.filter (fun r => r.item = req.item)).head? = some r0 ∧
      aplicarPasso s req =
        ⟨setQuantidade s.df req.item
           (if req.movimento = "ENTRADA" then r0.quantidade + req.qtd
            else r0.quantidade - req.qtd),
         s.hist ++ [⟨req.data, pyStrip req.usuario, req.item,
           req.movimento, req.qtd,
           if req.movimento = "ENTRADA" then r0.quantidade + req.qtd
           else r0.quantidade - req.qtd⟩]⟩ := by
  unfold aplicarPasso aplicar_movimento
  by_cases hu : pyStrip req.usuario = ""
  · left
    simp [hu]
  · cases hr : (s.df.filter (fun r => r.item = req.item)).head? with
    | none =>
      left
      simp [hu, hr]
    | some r0 =>
      by_cases hrej : req.movimento = "SAIDA" ∧ req.qtd > r0.quantidade
      · left
        simp [hu, hr, hrej]
      · right
        refine ⟨r0, rfl, ?_⟩
        simp [hu, hr, hrej, registrar_movimento]

/-- C4: over any sequence of button presses whose movement kinds are the
two the radio widget offers, the accepted movements append a block of
history records (extra), and for every item present in the initial stock
table, initial quantity plus recorded ENTRADA total minus recorded SAIDA
total over that block equals the item's current quantity; since the
sequence is arbitrary, this holds at every point in time
(app1.py lines 199-206 with the sums of lines 222-223). -/
theorem c4_conservacao (df0 : Tabela) (hist0 : Historia)
    (reqs : List Requisicao)
    (hmov : ∀ req ∈ reqs,
      req.movimento = "ENTRADA" ∨ req.movimento = "SAIDA") :
    ∃ extra, (aplicarTodos ⟨df0, hist0⟩ reqs).hist = hist0 ++ extra ∧
      ∀ item q0, firstQuantidade df0 item = some q0 →
        firstQuantidade (aplicarTodos ⟨df0, hist0⟩ reqs).df item =
          some (q0 + somaEntradas extra item - somaSaidas extra item) := by
  induction reqs generalizing df0 hist0 with
  | nil =>
    refine ⟨[], by simp [aplicarTodos], ?_⟩
    intro item q0 hq
    simp [aplicarTodos, somaEntradas, somaSaidas, hq]
  | cons req rest ih =>
    have hmr := hmov req (List.mem_cons_self req rest)
    have hmrest : ∀ r ∈ rest,
        r.movimento = "ENTRADA" ∨ r.movimento = "SAIDA" :=
      fun r hr => hmov r (List.mem_cons_of_mem req hr)
    have hstep : aplicarTodos ⟨df0, hist0⟩ (req :: rest) =
        aplicarTodos (aplicarPasso ⟨df0, hist0⟩ req) rest := rfl
    rcases aplicarPasso_shape ⟨df0, hist0⟩ req with hsame | ⟨r0, hr0, hacc⟩
    · rw [hstep, hsame]
      exact ih df0 hist0 hmrest
    · have hr0' : (df0.filter (fun r => r.item = req.item)).head? =
          some r0 := hr0
      set nv := if req.movimento = "ENTRADA" then r0.quantidade + req.qtd
        else r0.quantidade - req.qtd with hnv
      rw [hstep, hacc]
      obtain ⟨extra2, hh2, hb2⟩ :=
        ih (setQuantidade df0 req.item nv)
          (hist0 ++ [⟨req.data, pyStrip req.usuario, req.item,
            req.movimento, req.qtd, nv⟩]) hmrest
      refine ⟨⟨req.data, pyStrip req.usuario, req.item, req.movimento,
        req.qtd, nv⟩ :: extra2, ?_, ?_⟩
      · rw [hh2, List.append_assoc]
        rfl
      · intro item q0 hq
        rw [somaEntradas_cons, somaSaidas_cons]
        dsimp only
        by_cases hit : item = req.item
        · have hq0 : r0.quantidade = q0 := by
            have hfq : firstQuantidade df0 item = some r0.quantidade := by
              rw [hit]
              simp [firstQuantidade, hr0']
            rw [hfq] at hq
            exact Option.some.inj hq
          have hfq2 := hb2 item nv (by
            rw [hit]
            exact firstQuantidade_setQuantidade_eq df0 req.item nv r0 hr0')
          rw [hfq2]
          congr 1
          rcases hmr with hE | hS
          · rw [hE] at hnv
            rw [if_pos rfl] at hnv
            rw [if_pos ⟨hit.symm, hE⟩]
            rw [if_neg (by
              rintro ⟨-, hx⟩
              rw [hE] at hx
              exact absurd hx (by decide))]
            omega
          · rw [hS] at hnv
            rw [if_neg (by decide)] at hnv
            rw [if_neg (by
              rintro ⟨-, hx⟩
              rw [hS] at hx
              exact absurd hx (by decide))]
            rw [if_pos ⟨hit.symm, hS⟩]
            omega
        · have hne2 : ¬(req.item = item ∧ req.movimento = "ENTRADA") :=
            fun hx => hit hx.1.symm
          have hne3 : ¬(req.item = item ∧ req.movimento = "SAIDA") :=
            fun hx => hit hx.1.symm
          rw [if_neg hne2, if_neg hne3]
          have hfq2 := hb2 item q0 (by
            rw [firstQuantidade_setQuantidade_ne df0 req.item item nv hit]
            exact hq)
          rw [hfq2]
          congr 1
          omega

theorem c4_witness :
    (∀ req ∈ ([⟨"Ana", "Bolt", "ENTRADA", 5, "t1"⟩,
        ⟨"Ana", "Bolt", "SAIDA", 3, "t2"⟩] : List Requisicao),
      req.movimento = "ENTRADA" ∨ req.movimento = "SAIDA") ∧
      ∃ extra,
        (aplicarTodos ⟨[⟨"Bolt", 10⟩], []⟩
            [⟨"Ana", "Bolt", "ENTRADA", 5, "t1"⟩,
             ⟨"Ana", "Bolt", "SAIDA", 3, "t2"⟩]).hist = [] ++ extra ∧
        ∀ item q0, firstQuantidade [⟨"Bolt", 10⟩] item = some q0 →
          firstQuantidade (aplicarTodos ⟨[⟨"Bolt", 10⟩], []⟩
              [⟨"Ana", "Bolt", "ENTRADA", 5, "t1"⟩,
               ⟨"Ana", "Bolt", "SAIDA", 3, "t2"⟩]).df item =
            some (q0 + somaEntradas extra item - somaSaidas extra item) :=
  ⟨by decide,
   c4_conservacao [⟨"Bolt", 10⟩] []
     [⟨"Ana", "Bolt", "ENTRADA", 5, "t1"⟩,
      ⟨"Ana", "Bolt", "SAIDA", 3, "t2"⟩] (by decide)⟩

end Estoque
